import Mathlib

/-!
Verification of the glow repository: a per-pixel shading function duplicated
across two rendering backends (a WebGPU/TypeGPU variant in SunburstGlow.tsx and
a WebGL2/GLSL variant in SunburstGlowWebGL2.tsx), plus the surrounding
setup/teardown scaffolding.  The shader math is embedded over the real numbers
(the spec asks for bit-for-bit intent, not float reproduction); the lifecycle
scaffolding is embedded as explicit state-passing over a small state record.
-/

namespace Glow

/-- A 2-component vector, mirroring GLSL/WGSL vec2f. -/
structure Vec2 where
  x : ℝ
  y : ℝ

/-- A 3-component vector, mirroring GLSL/WGSL vec3f. -/
structure Vec3 where
  x : ℝ
  y : ℝ
  z : ℝ

/-- A 4-component RGBA color, mirroring GLSL/WGSL vec4f. -/
structure Vec4 where
  x : ℝ
  y : ℝ
  z : ℝ
  w : ℝ

/-- GLSL length of a vec2: the Euclidean norm. -/
noncomputable def length2 (v : Vec2) : ℝ := Real.sqrt (v.x ^ 2 + v.y ^ 2)

/-- GLSL step(edge, x): 0 when x < edge, 1 otherwise (x ≥ edge gives 1). -/
noncomputable def step (edge x : ℝ) : ℝ := if x < edge then 0 else 1

/-- GLSL atan(y, x) / WGSL atan2(y, x): the angle of the point (x, y),
in (-π, π], realized as the complex argument. -/
noncomputable def atan2 (y x : ℝ) : ℝ := Complex.arg { re := x, im := y }

/-- The uniforms record both fragment shaders read; field aspect is the
source's aspectRatio uniform (image width / height). -/
structure Uniforms where
  time : ℝ
  yolkCenter : Vec2
  yolkRadius : ℝ
  rayCount : ℝ
  glowIntensity : ℝ
  aspect : ℝ
  glowColor : Vec3

end Glow

/-! ## WebGPU backend: src/components/SunburstGlow.tsx -/

namespace SunburstGlow

open Glow

-- Shader constants from SunburstGlow.tsx (lines 16-68).
def YOLK_CENTER_X : ℝ := 0.5
def YOLK_CENTER_Y : ℝ := 0.46
def YOLK_RADIUS : ℝ := 0.05
def RAY_COUNT : ℝ := 10
def RAY_POWER : ℝ := 1.5
def RAY_INTENSITY : ℝ := 0.9
def WAVE_SPEED : ℝ := 1.5
def WAVE_FREQUENCY : ℝ := 40.0
def WAVE1_AMPLITUDE : ℝ := 0.3
def WAVE1_BASE : ℝ := 0.4
def WAVE1_SPEED_MULT : ℝ := 4.0
def WAVE1_BLEND : ℝ := 0.6
def WAVE2_AMPLITUDE : ℝ := 0.2
def WAVE2_BASE : ℝ := 0.8
def WAVE2_SPEED_MULT : ℝ := 2.5
def WAVE2_FREQ_MULT : ℝ := 0.5
def WAVE2_PHASE_OFFSET : ℝ := 1.5
def WAVE2_BLEND : ℝ := 0.4
def RAY_WAVE_BLEND : ℝ := 0.6
def WAVE_ONLY_BLEND : ℝ := 0.15
def GLOW_FALLOFF_RATE : ℝ := 4.0
def GLOW_INTENSITY : ℝ := 0.7
def OUTER_PULSE_FREQ : ℝ := 1.2
def OUTER_PULSE_AMPLITUDE : ℝ := 0.1
def OUTER_PULSE_BASE : ℝ := 0.9
def BLOOM_FALLOFF_RATE : ℝ := 10.0
def BLOOM_INTENSITY : ℝ := 0.05
def INNER_GLOW_INTENSITY : ℝ := 0.1
def INNER_GLOW_PULSE_SPEED : ℝ := 0.8
def INNER_GLOW_PULSE_AMOUNT : ℝ := 0.3
def GLOW_COLOR_R : ℝ := 1.0
def GLOW_COLOR_G : ℝ := 0.75
def GLOW_COLOR_B : ℝ := 0.3

/-- The radiatingRays tgpu function (SunburstGlow.tsx lines 101-160): angular
rays modulated by two traveling radial waves measured from the yolk edge. -/
noncomputable def radiatingRays (uv center : Vec2) (time rayCount dist yolkRadius : ℝ) : ℝ :=
  let dir : Vec2 := ⟨uv.x - center.x, uv.y - center.y⟩
  let angle := atan2 dir.y dir.x
  let edgeDist := max 0 (dist - yolkRadius)
  let rays := Real.rpow (max 0 (Real.sin (angle * rayCount))) RAY_POWER * RAY_INTENSITY
  let wave1 := Real.sin (edgeDist * WAVE_FREQUENCY - time * WAVE_SPEED * WAVE1_SPEED_MULT) *
    WAVE1_AMPLITUDE + WAVE1_BASE
  let wave2 := Real.sin (edgeDist * (WAVE_FREQUENCY * WAVE2_FREQ_MULT) -
    time * WAVE_SPEED * WAVE2_SPEED_MULT + WAVE2_PHASE_OFFSET) * WAVE2_AMPLITUDE + WAVE2_BASE
  let radiatingWave := wave1 * WAVE1_BLEND + wave2 * WAVE2_BLEND
  rays * radiatingWave * RAY_WAVE_BLEND + radiatingWave * WAVE_ONLY_BLEND

/-- The glowFalloff tgpu function (SunburstGlow.tsx lines 163-170). -/
noncomputable def glowFalloff (dist yolkRadius : ℝ) : ℝ :=
  let effectiveDist := max 0 (dist - yolkRadius)
  Real.exp (-effectiveDist * GLOW_FALLOFF_RATE)

/-- Aspect-corrected distance from uv to the yolk center
(fragmentMain lines 228-233). -/
noncomputable def dist (uv : Vec2) (uni : Uniforms) : ℝ :=
  length2 ⟨(uv.x - uni.yolkCenter.x) * uni.aspect, uv.y - uni.yolkCenter.y⟩

/-- The rayIntensity local of fragmentMain (lines 236-248): radiatingRays on
the aspect-corrected uv and center. -/
noncomputable def rayIntensity (uv : Vec2) (uni : Uniforms) : ℝ :=
  radiatingRays ⟨uv.x * uni.aspect, uv.y⟩ ⟨uni.yolkCenter.x * uni.aspect, uni.yolkCenter.y⟩
    uni.time uni.rayCount (dist uv uni) uni.yolkRadius

/-- The falloff local of fragmentMain (line 251). -/
noncomputable def falloff (uv : Vec2) (uni : Uniforms) : ℝ :=
  glowFalloff (dist uv uni) uni.yolkRadius

/-- The outer pulse local of fragmentMain (lines 254-260). -/
noncomputable def pulse (uni : Uniforms) : ℝ :=
  Real.sin (uni.time * OUTER_PULSE_FREQ) * OUTER_PULSE_AMPLITUDE + OUTER_PULSE_BASE

/-- The outsideYolk mask of fragmentMain (line 263): 0 inside the yolk,
1 outside. -/
noncomputable def outsideYolk (uv : Vec2) (uni : Uniforms) : ℝ :=
  step uni.yolkRadius (dist uv uni)

/-- The glowStrength local of fragmentMain (lines 266-272). -/
noncomputable def glowStrength (uv : Vec2) (uni : Uniforms) : ℝ :=
  rayIntensity uv uni * falloff uv uni * uni.glowIntensity * pulse uni * outsideYolk uv uni

/-- The glowContribution local of fragmentMain (line 275). -/
noncomputable def glowContribution (uv : Vec2) (uni : Uniforms) : Vec3 :=
  ⟨uni.glowColor.x * glowStrength uv uni, uni.glowColor.y * glowStrength uv uni,
    uni.glowColor.z * glowStrength uv uni⟩

/-- The bloom local of fragmentMain (lines 278-288). -/
noncomputable def bloom (uv : Vec2) (uni : Uniforms) : ℝ :=
  Real.exp (-(max 0 (dist uv uni - uni.yolkRadius)) * BLOOM_FALLOFF_RATE) * BLOOM_INTENSITY *
    pulse uni * outsideYolk uv uni

/-- The bloomColor local of fragmentMain (line 289). -/
noncomputable def bloomColor (uv : Vec2) (uni : Uniforms) : Vec3 :=
  ⟨uni.glowColor.x * bloom uv uni, uni.glowColor.y * bloom uv uni,
    uni.glowColor.z * bloom uv uni⟩

/-- The insideYolk mask of fragmentMain (line 292). -/
noncomputable def insideYolk (uv : Vec2) (uni : Uniforms) : ℝ :=
  1 - outsideYolk uv uni

/-- The innerPulse local of fragmentMain (lines 293-299). -/
noncomputable def innerPulse (uni : Uniforms) : ℝ :=
  Real.sin (uni.time * INNER_GLOW_PULSE_SPEED) * INNER_GLOW_PULSE_AMOUNT +
    (1 - INNER_GLOW_PULSE_AMOUNT)

/-- The innerGlow local of fragmentMain (lines 300-303). -/
noncomputable def innerGlow (uv : Vec2) (uni : Uniforms) : ℝ :=
  INNER_GLOW_INTENSITY * innerPulse uni * insideYolk uv uni

/-- The innerGlowColor local of fragmentMain (line 304). -/
noncomputable def innerGlowColor (uv : Vec2) (uni : Uniforms) : Vec3 :=
  ⟨uni.glowColor.x * innerGlow uv uni, uni.glowColor.y * innerGlow uv uni,
    uni.glowColor.z * innerGlow uv uni⟩

/-- The fragment shader fragmentMain (SunburstGlow.tsx lines 209-325):
original texel plus the three additive glow contributions in RGB, alpha
passed through. -/
noncomputable def fragmentMain (uv : Vec2) (uni : Uniforms) (originalColor : Vec4) : Vec4 :=
  ⟨originalColor.x + (glowContribution uv uni).x + (bloomColor uv uni).x +
      (innerGlowColor uv uni).x,
    originalColor.y + (glowContribution uv uni).y + (bloomColor uv uni).y +
      (innerGlowColor uv uni).y,
    originalColor.z + (glowContribution uv uni).z + (bloomColor uv uni).z +
      (innerGlowColor uv uni).z,
    originalColor.w⟩

/-- The uniforms value the render loop writes each frame
(SunburstGlow.tsx lines 435-443). -/
noncomputable def configuredUniforms (time aspect : ℝ) : Uniforms :=
  { time := time
    yolkCenter := ⟨YOLK_CENTER_X, YOLK_CENTER_Y⟩
    yolkRadius := YOLK_RADIUS
    rayCount := RAY_COUNT
    glowIntensity := GLOW_INTENSITY
    aspect := aspect
    glowColor := ⟨GLOW_COLOR_R, GLOW_COLOR_G, GLOW_COLOR_B⟩ }

end SunburstGlow

/-! ### WebGPU backend lifecycle (SunburstGlow.tsx lines 337-478) -/

namespace SunburstGlow

/-- Observable state of the WebGPU effect instance: the destroyed flag and
animationId of the closure (lines 338-340), whether the TypeGPU root and the
canvas context are alive, and how many draws have been issued. -/
structure EffectState where
  destroyed : Bool
  animQueued : Bool
  rootAlive : Bool
  contextAlive : Bool
  drawCount : Nat
  deriving DecidableEq, Repr

/-- One invocation of the render callback (lines 429-458): bail out when
destroyed or the root/context is gone, otherwise draw once and request the
next animation frame. -/
def render (s : EffectState) : EffectState :=
  if s.destroyed || !s.rootAlive || !s.contextAlive then s
  else { s with drawCount := s.drawCount + 1, animQueued := true }

/-- The effect cleanup (lines 469-477): set the destroyed flag, cancel any
queued animation frame, and destroy the TypeGPU root (releasing the resources
it owns) when present. -/
def cleanup (s : EffectState) : EffectState :=
  { s with destroyed := true, animQueued := false, rootAlive := false }

end SunburstGlow

/-! ## WebGL2 backend: src/components/SunburstGlowWebGL2.tsx -/

namespace SunburstGlowWebGL2

open Glow

-- Shader constants from SunburstGlowWebGL2.tsx (lines 12-54).
def YOLK_CENTER_X : ℝ := 0.501
def YOLK_CENTER_Y : ℝ := 0.46
def YOLK_RADIUS : ℝ := 0.055
def RAY_COUNT : ℝ := 10
def RAY_POWER : ℝ := 0.01
def RAY_INTENSITY : ℝ := 0.8
def WAVE_SPEED : ℝ := 0.3
def WAVE_FREQUENCY : ℝ := 40.0
def WAVE1_AMPLITUDE : ℝ := 0.3
def WAVE1_BASE : ℝ := 0.4
def WAVE1_SPEED_MULT : ℝ := 9.0
def WAVE1_BLEND : ℝ := 0.6
def WAVE2_AMPLITUDE : ℝ := 0.2
def WAVE2_BASE : ℝ := 0.8
def WAVE2_SPEED_MULT : ℝ := 2.5
def WAVE2_FREQ_MULT : ℝ := 0.5
def WAVE2_PHASE_OFFSET : ℝ := 1.5
def WAVE2_BLEND : ℝ := 0.4
def RAY_WAVE_BLEND : ℝ := 0.6
def WAVE_ONLY_BLEND : ℝ := 0.15
def GLOW_FALLOFF_RATE : ℝ := 1.0
def GLOW_INTENSITY : ℝ := 0.4
def OUTER_PULSE_FREQ : ℝ := 1.2
def OUTER_PULSE_AMPLITUDE : ℝ := 0.1
def OUTER_PULSE_BASE : ℝ := 0.9
def BLOOM_FALLOFF_RATE : ℝ := 10.0
def BLOOM_INTENSITY : ℝ := 0.15
def INNER_GLOW_INTENSITY : ℝ := 0.1
def INNER_GLOW_PULSE_SPEED : ℝ := 0.5
def INNER_GLOW_PULSE_AMOUNT : ℝ := 0.3
def GLOW_COLOR_R : ℝ := 1.0
def GLOW_COLOR_G : ℝ := 0.75
def GLOW_COLOR_B : ℝ := 0.3

/-- The GLSL radiatingRays function (fragment shader lines 132-149): the two
traveling radial waves only, no angular ray term; the angle is computed but
unused, and the combined wave is scaled by RAY_INTENSITY. -/
noncomputable def radiatingRays (uv center : Vec2) (time rayCount dist yolkRadius : ℝ) : ℝ :=
  let dir : Vec2 := ⟨uv.x - center.x, uv.y - center.y⟩
  let angle := atan2 dir.y dir.x
  let edgeDist := max 0 (dist - yolkRadius)
  let wave1 := Real.sin (edgeDist * WAVE_FREQUENCY - time * WAVE_SPEED * WAVE1_SPEED_MULT) *
    WAVE1_AMPLITUDE + WAVE1_BASE
  let wave2 := Real.sin (edgeDist * WAVE_FREQUENCY * WAVE2_FREQ_MULT -
    time * WAVE_SPEED * WAVE2_SPEED_MULT + WAVE2_PHASE_OFFSET) * WAVE2_AMPLITUDE + WAVE2_BASE
  let radiatingWave := wave1 * WAVE1_BLEND + wave2 * WAVE2_BLEND
  radiatingWave * RAY_INTENSITY

/-- The GLSL glowFalloff function (fragment shader lines 151-154). -/
noncomputable def glowFalloff (dist yolkRadius : ℝ) : ℝ :=
  let effectiveDist := max 0 (dist - yolkRadius)
  Real.exp (-effectiveDist * GLOW_FALLOFF_RATE)

/-- Aspect-corrected distance from vUv to the yolk center (main lines 161-163). -/
noncomputable def dist (uv : Vec2) (uni : Uniforms) : ℝ :=
  length2 ⟨(uv.x - uni.yolkCenter.x) * uni.aspect, uv.y - uni.yolkCenter.y⟩

/-- The rayIntensity local of main (lines 166-168). -/
noncomputable def rayIntensity (uv : Vec2) (uni : Uniforms) : ℝ :=
  radiatingRays ⟨uv.x * uni.aspect, uv.y⟩ ⟨uni.yolkCenter.x * uni.aspect, uni.yolkCenter.y⟩
    uni.time uni.rayCount (dist uv uni) uni.yolkRadius

/-- The falloff local of main (line 171). -/
noncomputable def falloff (uv : Vec2) (uni : Uniforms) : ℝ :=
  glowFalloff (dist uv uni) uni.yolkRadius

/-- The pulse local of main (line 174). -/
noncomputable def pulse (uni : Uniforms) : ℝ :=
  Real.sin (uni.time * OUTER_PULSE_FREQ) * OUTER_PULSE_AMPLITUDE + OUTER_PULSE_BASE

/-- The outsideYolk mask of main (line 177). -/
noncomputable def outsideYolk (uv : Vec2) (uni : Uniforms) : ℝ :=
  step uni.yolkRadius (dist uv uni)

/-- The glowStrength local of main (line 180). -/
noncomputable def glowStrength (uv : Vec2) (uni : Uniforms) : ℝ :=
  rayIntensity uv uni * falloff uv uni * uni.glowIntensity * pulse uni * outsideYolk uv uni

/-- The glowContribution local of main (line 183). -/
noncomputable def glowContribution (uv : Vec2) (uni : Uniforms) : Vec3 :=
  ⟨uni.glowColor.x * glowStrength uv uni, uni.glowColor.y * glowStrength uv uni,
    uni.glowColor.z * glowStrength uv uni⟩

/-- The bloom local of main (lines 186-187). -/
noncomputable def bloom (uv : Vec2) (uni : Uniforms) : ℝ :=
  Real.exp (-(max 0 (dist uv uni - uni.yolkRadius)) * BLOOM_FALLOFF_RATE) * BLOOM_INTENSITY *
    pulse uni * outsideYolk uv uni

/-- The bloomColor local of main (line 188). -/
noncomputable def bloomColor (uv : Vec2) (uni : Uniforms) : Vec3 :=
  ⟨uni.glowColor.x * bloom uv uni, uni.glowColor.y * bloom uv uni,
    uni.glowColor.z * bloom uv uni⟩

/-- The insideYolk mask of main (line 191). -/
noncomputable def insideYolk (uv : Vec2) (uni : Uniforms) : ℝ :=
  1 - outsideYolk uv uni

/-- The innerPulse local of main (line 192). -/
noncomputable def innerPulse (uni : Uniforms) : ℝ :=
  Real.sin (uni.time * INNER_GLOW_PULSE_SPEED) * INNER_GLOW_PULSE_AMOUNT +
    (1 - INNER_GLOW_PULSE_AMOUNT)

/-- The innerGlow local of main (line 193). -/
noncomputable def innerGlow (uv : Vec2) (uni : Uniforms) : ℝ :=
  INNER_GLOW_INTENSITY * innerPulse uni * insideYolk uv uni

/-- The innerGlowColor local of main (line 194). -/
noncomputable def innerGlowColor (uv : Vec2) (uni : Uniforms) : Vec3 :=
  ⟨uni.glowColor.x * innerGlow uv uni, uni.glowColor.y * innerGlow uv uni,
    uni.glowColor.z * innerGlow uv uni⟩

/-- The GLSL fragment shader main (lines 156-201): original texel plus the
three additive glow contributions in RGB, alpha passed through. -/
noncomputable def main (uv : Vec2) (uni : Uniforms) (originalColor : Vec4) : Vec4 :=
  ⟨originalColor.x + (glowContribution uv uni).x + (bloomColor uv uni).x +
      (innerGlowColor uv uni).x,
    originalColor.y + (glowContribution uv uni).y + (bloomColor uv uni).y +
      (innerGlowColor uv uni).y,
    originalColor.z + (glowContribution uv uni).z + (bloomColor uv uni).z +
      (innerGlowColor uv uni).z,
    originalColor.w⟩

/-- The uniforms value the render loop writes each frame
(SunburstGlowWebGL2.tsx lines 371-382). -/
noncomputable def configuredUniforms (time aspect : ℝ) : Uniforms :=
  { time := time
    yolkCenter := ⟨YOLK_CENTER_X, YOLK_CENTER_Y⟩
    yolkRadius := YOLK_RADIUS
    rayCount := RAY_COUNT
    glowIntensity := GLOW_INTENSITY
    aspect := aspect
    glowColor := ⟨GLOW_COLOR_R, GLOW_COLOR_G, GLOW_COLOR_B⟩ }

end SunburstGlowWebGL2

/-! ### WebGL2 backend lifecycle (SunburstGlowWebGL2.tsx lines 262-410) -/

namespace SunburstGlowWebGL2

/-- Observable state of the WebGL2 effect instance: the destroyed flag and
animationId of the closure (lines 263-265), liveness of the gl context and
canvas, allocation flags for the GL texture, program and vertex array object,
and how many draws have been issued. -/
structure EffectState where
  destroyed : Bool
  animQueued : Bool
  glAlive : Bool
  canvasAlive : Bool
  textureAllocated : Bool
  programAllocated : Bool
  vaoAllocated : Bool
  drawCount : Nat
  deriving DecidableEq, Repr

/-- One invocation of the render callback (lines 359-393): bail out when
destroyed or the gl context/canvas is gone, otherwise draw once and request
the next animation frame. -/
def render (s : EffectState) : EffectState :=
  if s.destroyed || !s.glAlive || !s.canvasAlive then s
  else { s with drawCount := s.drawCount + 1, animQueued := true }

/-- The effect cleanup (lines 404-409): set the destroyed flag and cancel any
queued animation frame.  The GL texture, program and vertex array object are
not deleted anywhere in the component. -/
def cleanup (s : EffectState) : EffectState :=
  { s with destroyed := true, animQueued := false }

end SunburstGlowWebGL2

/-! ### Canvas sizing (identical in both components) and the parameterized
radiating-rays function used to relate the two backends. -/

namespace Glow

/-- Canvas width computation (SunburstGlow.tsx line 362,
SunburstGlowWebGL2.tsx line 293): the source width capped by maxWidth.
Modelled over the rationals, exact for the JS arithmetic involved. -/
def canvasWidth (imageWidth maxWidth : ℚ) : ℚ :=
  min imageWidth maxWidth

/-- Canvas height computation (SunburstGlow.tsx lines 361-363,
SunburstGlowWebGL2.tsx lines 292-294): the capped width divided by the
source aspect ratio imageWidth / imageHeight. -/
def canvasHeight (imageWidth imageHeight maxWidth : ℚ) : ℚ :=
  let imageAspect := imageWidth / imageHeight
  canvasWidth imageWidth maxWidth / imageAspect

/-- The constant set of the radiating-rays function, covering both backends:
wave constants plus the ray/blend constants.  SunburstGlow.radiatingRays is
this function at the WebGPU constants; the claim C4 relates a setting of the
ray/blend fields to the WebGL2 variant. -/
structure RaysConfig where
  rayPower : ℝ
  rayIntensity : ℝ
  waveSpeed : ℝ
  waveFrequency : ℝ
  wave1Amplitude : ℝ
  wave1Base : ℝ
  wave1SpeedMult : ℝ
  wave1Blend : ℝ
  wave2Amplitude : ℝ
  wave2Base : ℝ
  wave2SpeedMult : ℝ
  wave2FreqMult : ℝ
  wave2PhaseOffset : ℝ
  wave2Blend : ℝ
  rayWaveBlend : ℝ
  waveOnlyBlend : ℝ

/-- The angular-ray radiatingRays shape of the WebGPU backend
(SunburstGlow.tsx lines 101-160), with every shader constant it mentions
abstracted into a RaysConfig. -/
noncomputable def radiatingRaysParam (c : RaysConfig) (uv center : Vec2)
    (time rayCount dist yolkRadius : ℝ) : ℝ :=
  let dir : Vec2 := ⟨uv.x - center.x, uv.y - center.y⟩
  let angle := atan2 dir.y dir.x
  let edgeDist := max 0 (dist - yolkRadius)
  let rays := Real.rpow (max 0 (Real.sin (angle * rayCount))) c.rayPower * c.rayIntensity
  let wave1 := Real.sin (edgeDist * c.waveFrequency - time * c.waveSpeed * c.wave1SpeedMult) *
    c.wave1Amplitude + c.wave1Base
  let wave2 := Real.sin (edgeDist * (c.waveFrequency * c.wave2FreqMult) -
    time * c.waveSpeed * c.wave2SpeedMult + c.wave2PhaseOffset) * c.wave2Amplitude + c.wave2Base
  let radiatingWave := wave1 * c.wave1Blend + wave2 * c.wave2Blend
  rays * radiatingWave * c.rayWaveBlend + radiatingWave * c.waveOnlyBlend

/-- The WebGPU backend's compiled-in constant set. -/
noncomputable def gpuRaysConfig : RaysConfig :=
  { rayPower := SunburstGlow.RAY_POWER
    rayIntensity := SunburstGlow.RAY_INTENSITY
    waveSpeed := SunburstGlow.WAVE_SPEED
    waveFrequency := SunburstGlow.WAVE_FREQUENCY
    wave1Amplitude := SunburstGlow.WAVE1_AMPLITUDE
    wave1Base := SunburstGlow.WAVE1_BASE
    wave1SpeedMult := SunburstGlow.WAVE1_SPEED_MULT
    wave1Blend := SunburstGlow.WAVE1_BLEND
    wave2Amplitude := SunburstGlow.WAVE2_AMPLITUDE
    wave2Base := SunburstGlow.WAVE2_BASE
    wave2SpeedMult := SunburstGlow.WAVE2_SPEED_MULT
    wave2FreqMult := SunburstGlow.WAVE2_FREQ_MULT
    wave2PhaseOffset := SunburstGlow.WAVE2_PHASE_OFFSET
    wave2Blend := SunburstGlow.WAVE2_BLEND
    rayWaveBlend := SunburstGlow.RAY_WAVE_BLEND
    waveOnlyBlend := SunburstGlow.WAVE_ONLY_BLEND }

/-- The WebGL2 backend's wave constants, with the ray/blend constants left as
parameters: the configurations C4 quantifies over. -/
noncomputable def gl2WaveRaysConfig (rayPower rayIntensity rayWaveBlend waveOnlyBlend : ℝ) :
    RaysConfig :=
  { rayPower := rayPower
    rayIntensity := rayIntensity
    waveSpeed := SunburstGlowWebGL2.WAVE_SPEED
    waveFrequency := SunburstGlowWebGL2.WAVE_FREQUENCY
    wave1Amplitude := SunburstGlowWebGL2.WAVE1_AMPLITUDE
    wave1Base := SunburstGlowWebGL2.WAVE1_BASE
    wave1SpeedMult := SunburstGlowWebGL2.WAVE1_SPEED_MULT
    wave1Blend := SunburstGlowWebGL2.WAVE1_BLEND
    wave2Amplitude := SunburstGlowWebGL2.WAVE2_AMPLITUDE
    wave2Base := SunburstGlowWebGL2.WAVE2_BASE
    wave2SpeedMult := SunburstGlowWebGL2.WAVE2_SPEED_MULT
    wave2FreqMult := SunburstGlowWebGL2.WAVE2_FREQ_MULT
    wave2PhaseOffset := SunburstGlowWebGL2.WAVE2_PHASE_OFFSET
    wave2Blend := SunburstGlowWebGL2.WAVE2_BLEND
    rayWaveBlend := rayWaveBlend
    waveOnlyBlend := waveOnlyBlend }

end Glow

/-- A WebGL2 effect instance mid-animation: not destroyed, a frame queued,
context and canvas alive, texture/program/VAO allocated. -/
def runningGL2State : SunburstGlowWebGL2.EffectState :=
  { destroyed := false
    animQueued := true
    glAlive := true
    canvasAlive := true
    textureAllocated := true
    programAllocated := true
    vaoAllocated := true
    drawCount := 7 }

/-! ## Theorems -/

/-- C6: for every pixel and every time, the alpha channel of each backend's
shading output equals the sampled texel's alpha unchanged, and each RGB
channel is the texel channel plus the three additive glow contributions. -/
theorem C6_alpha_passthrough_rgb_additive :
    ∀ (uv : Glow.Vec2) (uni : Glow.Uniforms) (texel : Glow.Vec4),
      (SunburstGlow.fragmentMain uv uni texel).w = texel.w ∧
      (SunburstGlow.fragmentMain uv uni texel).x =
        texel.x + (SunburstGlow.glowContribution uv uni).x +
          (SunburstGlow.bloomColor uv uni).x + (SunburstGlow.innerGlowColor uv uni).x ∧
      (SunburstGlow.fragmentMain uv uni texel).y =
        texel.y + (SunburstGlow.glowContribution uv uni).y +
          (SunburstGlow.bloomColor uv uni).y + (SunburstGlow.innerGlowColor uv uni).y ∧
      (SunburstGlow.fragmentMain uv uni texel).z =
        texel.z + (SunburstGlow.glowContribution uv uni).z +
          (SunburstGlow.bloomColor uv uni).z + (SunburstGlow.innerGlowColor uv uni).z ∧
      (SunburstGlowWebGL2.main uv uni texel).w = texel.w ∧
      (SunburstGlowWebGL2.main uv uni texel).x =
        texel.x + (SunburstGlowWebGL2.glowContribution uv uni).x +
          (SunburstGlowWebGL2.bloomColor uv uni).x + (SunburstGlowWebGL2.innerGlowColor uv uni).x ∧
      (SunburstGlowWebGL2.main uv uni texel).y =
        texel.y + (SunburstGlowWebGL2.glowContribution uv uni).y +
          (SunburstGlowWebGL2.bloomColor uv uni).y + (SunburstGlowWebGL2.innerGlowColor uv uni).y ∧
      (SunburstGlowWebGL2.main uv uni texel).z =
        texel.z + (SunburstGlowWebGL2.glowContribution uv uni).z +
          (SunburstGlowWebGL2.bloomColor uv uni).z + (SunburstGlowWebGL2.innerGlowColor uv uni).z :=
  fun _ _ _ => ⟨rfl, rfl, rfl, rfl, rfl, rfl, rfl, rfl⟩

/-- C7: the composed shading function of each backend is pure and
deterministic: evaluations at equal inputs (uv, uniforms including time, and
the sampled texel) give equal outputs; the embedding takes exactly these
inputs, so no hidden state can influence the result. -/
theorem C7_shading_pure_deterministic :
    ∀ (uv uv2 : Glow.Vec2) (uni uni2 : Glow.Uniforms) (texel texel2 : Glow.Vec4),
      uv = uv2 → uni = uni2 → texel = texel2 →
      SunburstGlow.fragmentMain uv uni texel = SunburstGlow.fragmentMain uv2 uni2 texel2 ∧
      SunburstGlowWebGL2.main uv uni texel = SunburstGlowWebGL2.main uv2 uni2 texel2 := by
  intro uv uv2 uni uni2 texel texel2 h1 h2 h3
  subst h1
  subst h2
  subst h3
  exact ⟨rfl, rfl⟩

/-- C7 witness: determinism instantiated at a concrete pixel, time and texel. -/
theorem C7_shading_pure_deterministic_witness :
    SunburstGlow.fragmentMain ⟨0.5, 0.6⟩ (SunburstGlow.configuredUniforms 0 1) ⟨0, 0, 0, 1⟩ =
      SunburstGlow.fragmentMain ⟨0.5, 0.6⟩ (SunburstGlow.configuredUniforms 0 1) ⟨0, 0, 0, 1⟩ ∧
    SunburstGlowWebGL2.main ⟨0.5, 0.6⟩ (SunburstGlow.configuredUniforms 0 1) ⟨0, 0, 0, 1⟩ =
      SunburstGlowWebGL2.main ⟨0.5, 0.6⟩ (SunburstGlow.configuredUniforms 0 1)
        ⟨0, 0, 0, 1⟩ :=
  C7_shading_pure_deterministic _ _ _ _ _ _ rfl rfl rfl

/-- Shifting the argument of a sine-based pulse by a full period 2π/f leaves
the pulse value sin(t f) a + b unchanged, for nonzero frequency f. -/
theorem sin_pulse_period_shift (t f a b : ℝ) (hf : f ≠ 0) :
    Real.sin ((t + 2 * Real.pi / f) * f) * a + b = Real.sin (t * f) * a + b := by
  have h : (t + 2 * Real.pi / f) * f = t * f + 2 * Real.pi := by
    field_simp
  rw [h, Real.sin_add_two_pi]

/-- C8: the outer pulse term and the inner pulse term of each backend are
periodic in t with their configured frequencies: evaluating at t and at
t + 2π/freq gives equal values (outer freq 1.2 in both backends, inner freq
0.8 WebGPU and 0.5 WebGL2). -/
theorem C8_pulse_terms_periodic :
    ∀ (t aspect : ℝ),
      SunburstGlow.pulse
          (SunburstGlow.configuredUniforms (t + 2 * Real.pi / SunburstGlow.OUTER_PULSE_FREQ)
            aspect) =
        SunburstGlow.pulse (SunburstGlow.configuredUniforms t aspect) ∧
      SunburstGlow.innerPulse
          (SunburstGlow.configuredUniforms (t + 2 * Real.pi / SunburstGlow.INNER_GLOW_PULSE_SPEED)
            aspect) =
        SunburstGlow.innerPulse (SunburstGlow.configuredUniforms t aspect) ∧
      SunburstGlowWebGL2.pulse
          (SunburstGlowWebGL2.configuredUniforms
            (t + 2 * Real.pi / SunburstGlowWebGL2.OUTER_PULSE_FREQ) aspect) =
        SunburstGlowWebGL2.pulse (SunburstGlowWebGL2.configuredUniforms t aspect) ∧
      SunburstGlowWebGL2.innerPulse
          (SunburstGlowWebGL2.configuredUniforms
            (t + 2 * Real.pi / SunburstGlowWebGL2.INNER_GLOW_PULSE_SPEED) aspect) =
        SunburstGlowWebGL2.innerPulse (SunburstGlowWebGL2.configuredUniforms t aspect) := by
  intro t aspect
  refine ⟨?_, ?_, ?_, ?_⟩
  · exact sin_pulse_period_shift t _ _ _
      (by norm_num [SunburstGlow.OUTER_PULSE_FREQ])
  · exact sin_pulse_period_shift t _ _ _
      (by norm_num [SunburstGlow.INNER_GLOW_PULSE_SPEED])
  · exact sin_pulse_period_shift t _ _ _
      (by norm_num [SunburstGlowWebGL2.OUTER_PULSE_FREQ])
  · exact sin_pulse_period_shift t _ _ _
      (by norm_num [SunburstGlowWebGL2.INNER_GLOW_PULSE_SPEED])

/-- C9: for positive source dimensions and positive maxWidth, the canvas
width is min(imageWidth, maxWidth), never exceeding the native width, and the
canvas height is that width divided by the source aspect ratio w/h, so the
rendered width/height ratio equals the source ratio. -/
theorem C9_canvas_dimensions :
    ∀ w h mw : ℚ, 0 < w → 0 < h → 0 < mw →
      Glow.canvasWidth w mw = min w mw ∧
      Glow.canvasWidth w mw ≤ w ∧
      Glow.canvasHeight w h mw = Glow.canvasWidth w mw / (w / h) ∧
      Glow.canvasWidth w mw / Glow.canvasHeight w h mw = w / h := by
  intro w h mw hw hh hmw
  have hcw : 0 < Glow.canvasWidth w mw := lt_min hw hmw
  have ha : (0:ℚ) < w / h := div_pos hw hh
  refine ⟨rfl, min_le_left _ _, rfl, ?_⟩
  show Glow.canvasWidth w mw / (Glow.canvasWidth w mw / (w / h)) = w / h
  rw [div_div_eq_mul_div, mul_comm (Glow.canvasWidth w mw) (w / h), mul_div_assoc,
    div_self hcw.ne', mul_one]

/-- C9 witness: a 1000x500 source with maxWidth 800 renders at 800x400. -/
theorem C9_canvas_dimensions_witness :
    (0:ℚ) < 1000 ∧ (0:ℚ) < 500 ∧ (0:ℚ) < 800 ∧
    (Glow.canvasWidth 1000 800 = min 1000 800 ∧
      Glow.canvasWidth 1000 800 ≤ 1000 ∧
      Glow.canvasHeight 1000 500 800 = Glow.canvasWidth 1000 800 / (1000 / 500) ∧
      Glow.canvasWidth 1000 800 / Glow.canvasHeight 1000 500 800 = 1000 / 500) :=
  ⟨by norm_num, by norm_num, by norm_num,
    C9_canvas_dimensions 1000 500 800 (by norm_num) (by norm_num) (by norm_num)⟩


/-- C5 counterexample: tearing down the WebGL2 view mid-animation does not
release the backend resources — the cleanup only sets the destroyed flag and
cancels the queued frame, leaving the GL texture, program and VAO allocated,
so the claim that all backend resources are released is false. -/
theorem C5_counterexample :
    ¬ ((SunburstGlowWebGL2.cleanup runningGL2State).textureAllocated = false ∧
       (SunburstGlowWebGL2.cleanup runningGL2State).programAllocated = false ∧
       (SunburstGlowWebGL2.cleanup runningGL2State).vaoAllocated = false) := by
  decide

/-- C5 (amended): after teardown no redraw callback performs rendering work
even if one was queued (render on a torn-down state is the identity, in both
backends), tearing down twice is a no-op the second time, and the WebGPU
backend destroys its TypeGPU root in cleanup; the WebGL2 backend's cleanup,
however, leaves its GL texture, program and VAO exactly as they were. -/
theorem C5_amended_teardown :
    (∀ s : SunburstGlow.EffectState,
        SunburstGlow.render (SunburstGlow.cleanup s) = SunburstGlow.cleanup s) ∧
    (∀ s : SunburstGlow.EffectState, (SunburstGlow.cleanup s).rootAlive = false) ∧
    (∀ s : SunburstGlow.EffectState,
        SunburstGlow.cleanup (SunburstGlow.cleanup s) = SunburstGlow.cleanup s) ∧
    (∀ s : SunburstGlowWebGL2.EffectState,
        SunburstGlowWebGL2.render (SunburstGlowWebGL2.cleanup s) = SunburstGlowWebGL2.cleanup s) ∧
    (∀ s : SunburstGlowWebGL2.EffectState,
        SunburstGlowWebGL2.cleanup (SunburstGlowWebGL2.cleanup s) =
          SunburstGlowWebGL2.cleanup s) ∧
    (∀ s : SunburstGlowWebGL2.EffectState,
        (SunburstGlowWebGL2.cleanup s).textureAllocated = s.textureAllocated ∧
        (SunburstGlowWebGL2.cleanup s).programAllocated = s.programAllocated ∧
        (SunburstGlowWebGL2.cleanup s).vaoAllocated = s.vaoAllocated) := by
  refine ⟨?_, ?_, ?_, ?_, ?_, ?_⟩
  · intro s
    simp [SunburstGlow.render, SunburstGlow.cleanup]
  · intro s
    simp [SunburstGlow.cleanup]
  · intro s
    simp [SunburstGlow.cleanup]
  · intro s
    simp [SunburstGlowWebGL2.render, SunburstGlowWebGL2.cleanup]
  · intro s
    simp [SunburstGlowWebGL2.cleanup]
  · intro s
    simp [SunburstGlowWebGL2.cleanup]

/-- The GLSL step mask at edge r evaluates to 0 on inputs strictly below r. -/
theorem step_eq_zero_of_lt {r d : ℝ} (h : d < r) : Glow.step r d = 0 := by
  simp [Glow.step, h]

/-- C2: at every uv whose aspect-corrected distance from the configured
center is strictly less than the configured radius, and at every time and
aspect, the outside mask is 0 and the primary glow and bloom contributions
are exactly 0 in all three channels, in both backends. -/
theorem C2_inside_yolk_no_glow :
    ∀ (uv : Glow.Vec2) (t aspect : ℝ),
      (SunburstGlow.dist uv (SunburstGlow.configuredUniforms t aspect) <
          SunburstGlow.YOLK_RADIUS →
        SunburstGlow.outsideYolk uv (SunburstGlow.configuredUniforms t aspect) = 0 ∧
        SunburstGlow.glowContribution uv (SunburstGlow.configuredUniforms t aspect) =
          ⟨0, 0, 0⟩ ∧
        SunburstGlow.bloomColor uv (SunburstGlow.configuredUniforms t aspect) = ⟨0, 0, 0⟩) ∧
      (SunburstGlowWebGL2.dist uv (SunburstGlowWebGL2.configuredUniforms t aspect) <
          SunburstGlowWebGL2.YOLK_RADIUS →
        SunburstGlowWebGL2.outsideYolk uv (SunburstGlowWebGL2.configuredUniforms t aspect) = 0 ∧
        SunburstGlowWebGL2.glowContribution uv (SunburstGlowWebGL2.configuredUniforms t aspect) =
          ⟨0, 0, 0⟩ ∧
        SunburstGlowWebGL2.bloomColor uv (SunburstGlowWebGL2.configuredUniforms t aspect) =
          ⟨0, 0, 0⟩) := by
  intro uv t aspect
  constructor
  · intro h
    have hm : SunburstGlow.outsideYolk uv (SunburstGlow.configuredUniforms t aspect) = 0 := by
      have : (SunburstGlow.configuredUniforms t aspect).yolkRadius =
          SunburstGlow.YOLK_RADIUS := rfl
      unfold SunburstGlow.outsideYolk
      rw [this]
      exact step_eq_zero_of_lt h
    refine ⟨hm, ?_, ?_⟩
    · simp [SunburstGlow.glowContribution, SunburstGlow.glowStrength, hm]
    · simp [SunburstGlow.bloomColor, SunburstGlow.bloom, hm]
  · intro h
    have hm : SunburstGlowWebGL2.outsideYolk uv (SunburstGlowWebGL2.configuredUniforms t aspect)
        = 0 := by
      have : (SunburstGlowWebGL2.configuredUniforms t aspect).yolkRadius =
          SunburstGlowWebGL2.YOLK_RADIUS := rfl
      unfold SunburstGlowWebGL2.outsideYolk
      rw [this]
      exact step_eq_zero_of_lt h
    refine ⟨hm, ?_, ?_⟩
    · simp [SunburstGlowWebGL2.glowContribution, SunburstGlowWebGL2.glowStrength, hm]
    · simp [SunburstGlowWebGL2.bloomColor, SunburstGlowWebGL2.bloom, hm]

/-- C2 witness: at the exact yolk centers (aspect 1, t = 0) the distance is 0,
strictly inside both radii, and the masks evaluate to 0. -/
theorem C2_inside_yolk_no_glow_witness :
    (SunburstGlow.dist ⟨0.5, 0.46⟩ (SunburstGlow.configuredUniforms 0 1) <
        SunburstGlow.YOLK_RADIUS ∧
      SunburstGlow.outsideYolk ⟨0.5, 0.46⟩ (SunburstGlow.configuredUniforms 0 1) = 0) ∧
    (SunburstGlowWebGL2.dist ⟨0.501, 0.46⟩ (SunburstGlowWebGL2.configuredUniforms 0 1) <
        SunburstGlowWebGL2.YOLK_RADIUS ∧
      SunburstGlowWebGL2.outsideYolk ⟨0.501, 0.46⟩ (SunburstGlowWebGL2.configuredUniforms 0 1) =
        0) := by
  have h1 : SunburstGlow.dist ⟨0.5, 0.46⟩ (SunburstGlow.configuredUniforms 0 1) <
      SunburstGlow.YOLK_RADIUS := by
    unfold SunburstGlow.dist Glow.length2 SunburstGlow.configuredUniforms
    norm_num [SunburstGlow.YOLK_CENTER_X, SunburstGlow.YOLK_CENTER_Y, SunburstGlow.YOLK_RADIUS]
  have h2 : SunburstGlowWebGL2.dist ⟨0.501, 0.46⟩ (SunburstGlowWebGL2.configuredUniforms 0 1) <
      SunburstGlowWebGL2.YOLK_RADIUS := by
    unfold SunburstGlowWebGL2.dist Glow.length2 SunburstGlowWebGL2.configuredUniforms
    norm_num [SunburstGlowWebGL2.YOLK_CENTER_X, SunburstGlowWebGL2.YOLK_CENTER_Y,
      SunburstGlowWebGL2.YOLK_RADIUS]
  exact ⟨⟨h1, ((C2_inside_yolk_no_glow ⟨0.5, 0.46⟩ 0 1).1 h1).1⟩,
    ⟨h2, ((C2_inside_yolk_no_glow ⟨0.501, 0.46⟩ 0 1).2 h2).1⟩⟩

/-- Exponential edge falloff at a positive rate is strictly positive and at
most 1 from the yolk edge outward. -/
theorem exp_edge_falloff_mem_Ioc (rate r d : ℝ) (hrate : 0 < rate) :
    0 < Real.exp (-(max 0 (d - r)) * rate) ∧ Real.exp (-(max 0 (d - r)) * rate) ≤ 1 := by
  refine ⟨Real.exp_pos _, ?_⟩
  rw [Real.exp_le_one_iff]
  have h0 : 0 ≤ max 0 (d - r) := le_max_left 0 _
  nlinarith

/-- Exponential edge falloff at a positive rate is strictly decreasing in the
distance beyond the yolk radius. -/
theorem exp_edge_falloff_strict_anti (rate r d d2 : ℝ) (hrate : 0 < rate) (hd : r ≤ d)
    (hlt : d < d2) :
    Real.exp (-(max 0 (d2 - r)) * rate) < Real.exp (-(max 0 (d - r)) * rate) := by
  rw [Real.exp_lt_exp]
  rw [max_eq_right (by linarith : (0:ℝ) ≤ d - r), max_eq_right (by linarith : (0:ℝ) ≤ d2 - r)]
  nlinarith

/-- Exponential edge falloff at a positive rate tends to 0 as the distance
tends to infinity. -/
theorem exp_edge_falloff_tendsto_zero (rate r : ℝ) (hrate : 0 < rate) :
    Filter.Tendsto (fun d => Real.exp (-(max 0 (d - r)) * rate)) Filter.atTop (nhds 0) := by
  rw [Real.tendsto_exp_comp_nhds_zero]
  have h1 : Filter.Tendsto (fun d : ℝ => -((d + -r) * rate)) Filter.atTop Filter.atBot :=
    Filter.tendsto_neg_atTop_atBot.comp
      ((Filter.tendsto_atTop_add_const_right Filter.atTop (-r)
        Filter.tendsto_id).atTop_mul_const hrate)
  refine Filter.Tendsto.congr' ?_ h1
  filter_upwards [Filter.eventually_ge_atTop r] with d hd
  rw [max_eq_right (by linarith : (0:ℝ) ≤ d - r)]
  ring

/-- C3: for distances at or beyond the yolk radius, each backend's glow
falloff exp(-max(0, dist - radius) * GLOW_FALLOFF_RATE) lies in (0, 1], is
strictly decreasing as the distance increases, and tends to 0 as the distance
tends to infinity. -/
theorem C3_falloff_range_decreasing_limit :
    (∀ r d : ℝ, r ≤ d →
        (0 < SunburstGlow.glowFalloff d r ∧ SunburstGlow.glowFalloff d r ≤ 1) ∧
        ∀ d2 : ℝ, d < d2 → SunburstGlow.glowFalloff d2 r < SunburstGlow.glowFalloff d r) ∧
    (∀ r : ℝ,
        Filter.Tendsto (fun d => SunburstGlow.glowFalloff d r) Filter.atTop (nhds 0)) ∧
    (∀ r d : ℝ, r ≤ d →
        (0 < SunburstGlowWebGL2.glowFalloff d r ∧ SunburstGlowWebGL2.glowFalloff d r ≤ 1) ∧
        ∀ d2 : ℝ, d < d2 →
          SunburstGlowWebGL2.glowFalloff d2 r < SunburstGlowWebGL2.glowFalloff d r) ∧
    (∀ r : ℝ,
        Filter.Tendsto (fun d => SunburstGlowWebGL2.glowFalloff d r) Filter.atTop (nhds 0)) := by
  have hrate1 : (0:ℝ) < SunburstGlow.GLOW_FALLOFF_RATE := by
    norm_num [SunburstGlow.GLOW_FALLOFF_RATE]
  have hrate2 : (0:ℝ) < SunburstGlowWebGL2.GLOW_FALLOFF_RATE := by
    norm_num [SunburstGlowWebGL2.GLOW_FALLOFF_RATE]
  refine ⟨?_, ?_, ?_, ?_⟩
  · intro r d hd
    exact ⟨exp_edge_falloff_mem_Ioc _ r d hrate1,
      fun d2 hlt => exp_edge_falloff_strict_anti _ r d d2 hrate1 hd hlt⟩
  · intro r
    exact exp_edge_falloff_tendsto_zero _ r hrate1
  · intro r d hd
    exact ⟨exp_edge_falloff_mem_Ioc _ r d hrate2,
      fun d2 hlt => exp_edge_falloff_strict_anti _ r d d2 hrate2 hd hlt⟩
  · intro r
    exact exp_edge_falloff_tendsto_zero _ r hrate2

/-- C3 witness: concrete distances 0.1 < 0.2 beyond each configured radius,
where both falloffs are in (0, 1] and strictly decrease. -/
theorem C3_falloff_witness :
    SunburstGlow.YOLK_RADIUS ≤ (0.1:ℝ) ∧ (0.1:ℝ) < 0.2 ∧
    SunburstGlowWebGL2.YOLK_RADIUS ≤ (0.1:ℝ) ∧
    (0 < SunburstGlow.glowFalloff 0.1 SunburstGlow.YOLK_RADIUS ∧
      SunburstGlow.glowFalloff 0.1 SunburstGlow.YOLK_RADIUS ≤ 1) ∧
    SunburstGlow.glowFalloff 0.2 SunburstGlow.YOLK_RADIUS <
      SunburstGlow.glowFalloff 0.1 SunburstGlow.YOLK_RADIUS ∧
    (0 < SunburstGlowWebGL2.glowFalloff 0.1 SunburstGlowWebGL2.YOLK_RADIUS ∧
      SunburstGlowWebGL2.glowFalloff 0.1 SunburstGlowWebGL2.YOLK_RADIUS ≤ 1) ∧
    SunburstGlowWebGL2.glowFalloff 0.2 SunburstGlowWebGL2.YOLK_RADIUS <
      SunburstGlowWebGL2.glowFalloff 0.1 SunburstGlowWebGL2.YOLK_RADIUS := by
  have h1 : SunburstGlow.YOLK_RADIUS ≤ (0.1:ℝ) := by norm_num [SunburstGlow.YOLK_RADIUS]
  have h2 : SunburstGlowWebGL2.YOLK_RADIUS ≤ (0.1:ℝ) := by
    norm_num [SunburstGlowWebGL2.YOLK_RADIUS]
  have hgpu := (C3_falloff_range_decreasing_limit.1 SunburstGlow.YOLK_RADIUS 0.1 h1)
  have hgl2 := (C3_falloff_range_decreasing_limit.2.2.1 SunburstGlowWebGL2.YOLK_RADIUS 0.1 h2)
  exact ⟨h1, by norm_num, h2, hgpu.1, hgpu.2 0.2 (by norm_num), hgl2.1,
    hgl2.2 0.2 (by norm_num)⟩

/-- The GLSL step mask is non-negative. -/
theorem step_nonneg (e x : ℝ) : 0 ≤ Glow.step e x := by
  unfold Glow.step
  split
  · exact le_refl 0
  · exact zero_le_one

/-- The GLSL step mask is at most one. -/
theorem step_le_one (e x : ℝ) : Glow.step e x ≤ 1 := by
  unfold Glow.step
  split
  · exact zero_le_one
  · exact le_refl 1

/-- The blended two-wave term of the WebGPU radiatingRays is non-negative:
each wave is a sine scaled by an amplitude below its base. -/
theorem gpu_wave_blend_nonneg (x y : ℝ) :
    0 ≤ (Real.sin x * SunburstGlow.WAVE1_AMPLITUDE + SunburstGlow.WAVE1_BASE) *
        SunburstGlow.WAVE1_BLEND +
      (Real.sin y * SunburstGlow.WAVE2_AMPLITUDE + SunburstGlow.WAVE2_BASE) *
        SunburstGlow.WAVE2_BLEND := by
  have hx := Real.neg_one_le_sin x
  have hy := Real.neg_one_le_sin y
  norm_num [SunburstGlow.WAVE1_AMPLITUDE, SunburstGlow.WAVE1_BASE, SunburstGlow.WAVE1_BLEND,
    SunburstGlow.WAVE2_AMPLITUDE, SunburstGlow.WAVE2_BASE, SunburstGlow.WAVE2_BLEND]
  nlinarith

/-- The blended two-wave term of the WebGL2 radiatingRays is non-negative. -/
theorem gl2_wave_blend_nonneg (x y : ℝ) :
    0 ≤ (Real.sin x * SunburstGlowWebGL2.WAVE1_AMPLITUDE + SunburstGlowWebGL2.WAVE1_BASE) *
        SunburstGlowWebGL2.WAVE1_BLEND +
      (Real.sin y * SunburstGlowWebGL2.WAVE2_AMPLITUDE + SunburstGlowWebGL2.WAVE2_BASE) *
        SunburstGlowWebGL2.WAVE2_BLEND := by
  have hx := Real.neg_one_le_sin x
  have hy := Real.neg_one_le_sin y
  norm_num [SunburstGlowWebGL2.WAVE1_AMPLITUDE, SunburstGlowWebGL2.WAVE1_BASE,
    SunburstGlowWebGL2.WAVE1_BLEND, SunburstGlowWebGL2.WAVE2_AMPLITUDE,
    SunburstGlowWebGL2.WAVE2_BASE, SunburstGlowWebGL2.WAVE2_BLEND]
  nlinarith

/-- The WebGPU radiatingRays value is non-negative for all inputs. -/
theorem radiatingRays_gpu_nonneg (uv center : Glow.Vec2)
    (time rayCount dist yolkRadius : ℝ) :
    0 ≤ SunburstGlow.radiatingRays uv center time rayCount dist yolkRadius := by
  simp only [SunburstGlow.radiatingRays]
  have hrays : 0 ≤ Real.rpow
      (max 0 (Real.sin (Glow.atan2 (uv.y - center.y) (uv.x - center.x) * rayCount)))
      SunburstGlow.RAY_POWER * SunburstGlow.RAY_INTENSITY :=
    mul_nonneg (Real.rpow_nonneg (le_max_left 0 _) _)
      (by norm_num [SunburstGlow.RAY_INTENSITY])
  have hw := gpu_wave_blend_nonneg
    (max 0 (dist - yolkRadius) * SunburstGlow.WAVE_FREQUENCY -
      time * SunburstGlow.WAVE_SPEED * SunburstGlow.WAVE1_SPEED_MULT)
    (max 0 (dist - yolkRadius) * (SunburstGlow.WAVE_FREQUENCY * SunburstGlow.WAVE2_FREQ_MULT) -
      time * SunburstGlow.WAVE_SPEED * SunburstGlow.WAVE2_SPEED_MULT +
      SunburstGlow.WAVE2_PHASE_OFFSET)
  refine add_nonneg (mul_nonneg (mul_nonneg hrays hw) ?_) (mul_nonneg hw ?_)
  · norm_num [SunburstGlow.RAY_WAVE_BLEND]
  · norm_num [SunburstGlow.WAVE_ONLY_BLEND]

/-- The WebGL2 radiatingRays value is non-negative for all inputs. -/
theorem radiatingRays_gl2_nonneg (uv center : Glow.Vec2)
    (time rayCount dist yolkRadius : ℝ) :
    0 ≤ SunburstGlowWebGL2.radiatingRays uv center time rayCount dist yolkRadius := by
  simp only [SunburstGlowWebGL2.radiatingRays]
  exact mul_nonneg
    (gl2_wave_blend_nonneg
      (max 0 (dist - yolkRadius) * SunburstGlowWebGL2.WAVE_FREQUENCY -
        time * SunburstGlowWebGL2.WAVE_SPEED * SunburstGlowWebGL2.WAVE1_SPEED_MULT)
      (max 0 (dist - yolkRadius) * SunburstGlowWebGL2.WAVE_FREQUENCY *
          SunburstGlowWebGL2.WAVE2_FREQ_MULT -
        time * SunburstGlowWebGL2.WAVE_SPEED * SunburstGlowWebGL2.WAVE2_SPEED_MULT +
        SunburstGlowWebGL2.WAVE2_PHASE_OFFSET))
    (by norm_num [SunburstGlowWebGL2.RAY_INTENSITY])

/-- The WebGPU outer pulse is strictly positive for every uniforms record. -/
theorem pulse_gpu_pos (uni : Glow.Uniforms) : 0 < SunburstGlow.pulse uni := by
  unfold SunburstGlow.pulse
  have h := Real.neg_one_le_sin (uni.time * SunburstGlow.OUTER_PULSE_FREQ)
  norm_num [SunburstGlow.OUTER_PULSE_AMPLITUDE, SunburstGlow.OUTER_PULSE_BASE]
  nlinarith

/-- The WebGL2 outer pulse is strictly positive for every uniforms record. -/
theorem pulse_gl2_pos (uni : Glow.Uniforms) : 0 < SunburstGlowWebGL2.pulse uni := by
  unfold SunburstGlowWebGL2.pulse
  have h := Real.neg_one_le_sin (uni.time * SunburstGlowWebGL2.OUTER_PULSE_FREQ)
  norm_num [SunburstGlowWebGL2.OUTER_PULSE_AMPLITUDE, SunburstGlowWebGL2.OUTER_PULSE_BASE]
  nlinarith

/-- The WebGPU inner pulse is strictly positive for every uniforms record. -/
theorem innerPulse_gpu_pos (uni : Glow.Uniforms) : 0 < SunburstGlow.innerPulse uni := by
  unfold SunburstGlow.innerPulse
  have h := Real.neg_one_le_sin (uni.time * SunburstGlow.INNER_GLOW_PULSE_SPEED)
  norm_num [SunburstGlow.INNER_GLOW_PULSE_AMOUNT]
  nlinarith

/-- The WebGL2 inner pulse is strictly positive for every uniforms record. -/
theorem innerPulse_gl2_pos (uni : Glow.Uniforms) : 0 < SunburstGlowWebGL2.innerPulse uni := by
  unfold SunburstGlowWebGL2.innerPulse
  have h := Real.neg_one_le_sin (uni.time * SunburstGlowWebGL2.INNER_GLOW_PULSE_SPEED)
  norm_num [SunburstGlowWebGL2.INNER_GLOW_PULSE_AMOUNT]
  nlinarith

/-- The WebGPU glowStrength is non-negative under the configured uniforms. -/
theorem glowStrength_gpu_nonneg (uv : Glow.Vec2) (t aspect : ℝ) :
    0 ≤ SunburstGlow.glowStrength uv (SunburstGlow.configuredUniforms t aspect) := by
  unfold SunburstGlow.glowStrength
  refine mul_nonneg (mul_nonneg (mul_nonneg (mul_nonneg ?_ ?_) ?_) ?_) ?_
  · exact radiatingRays_gpu_nonneg _ _ _ _ _ _
  · exact (Real.exp_pos _).le
  · show (0:ℝ) ≤ (SunburstGlow.configuredUniforms t aspect).glowIntensity
    norm_num [SunburstGlow.configuredUniforms, SunburstGlow.GLOW_INTENSITY]
  · exact (pulse_gpu_pos _).le
  · exact step_nonneg _ _
/-- The WebGL2 glowStrength is non-negative under the configured uniforms. -/
theorem glowStrength_gl2_nonneg (uv : Glow.Vec2) (t aspect : ℝ) :
    0 ≤ SunburstGlowWebGL2.glowStrength uv (SunburstGlowWebGL2.configuredUniforms t aspect) := by
  unfold SunburstGlowWebGL2.glowStrength
  refine mul_nonneg (mul_nonneg (mul_nonneg (mul_nonneg ?_ ?_) ?_) ?_) ?_
  · exact radiatingRays_gl2_nonneg _ _ _ _ _ _
  · exact (Real.exp_pos _).le
  · show (0:ℝ) ≤ (SunburstGlowWebGL2.configuredUniforms t aspect).glowIntensity
    norm_num [SunburstGlowWebGL2.configuredUniforms, SunburstGlowWebGL2.GLOW_INTENSITY]
  · exact (pulse_gl2_pos _).le
  · exact step_nonneg _ _

/-- The WebGPU bloom term is non-negative for every uniforms record. -/
theorem bloom_gpu_nonneg (uv : Glow.Vec2) (uni : Glow.Uniforms) :
    0 ≤ SunburstGlow.bloom uv uni := by
  unfold SunburstGlow.bloom
  refine mul_nonneg (mul_nonneg (mul_nonneg (Real.exp_pos _).le ?_) (pulse_gpu_pos _).le)
    (step_nonneg _ _)
  norm_num [SunburstGlow.BLOOM_INTENSITY]

/-- The WebGL2 bloom term is non-negative for every uniforms record. -/
theorem bloom_gl2_nonneg (uv : Glow.Vec2) (uni : Glow.Uniforms) :
    0 ≤ SunburstGlowWebGL2.bloom uv uni := by
  unfold SunburstGlowWebGL2.bloom
  refine mul_nonneg (mul_nonneg (mul_nonneg (Real.exp_pos _).le ?_) (pulse_gl2_pos _).le)
    (step_nonneg _ _)
  norm_num [SunburstGlowWebGL2.BLOOM_INTENSITY]

/-- The WebGPU innerGlow term is non-negative for every uniforms record. -/
theorem innerGlow_gpu_nonneg (uv : Glow.Vec2) (uni : Glow.Uniforms) :
    0 ≤ SunburstGlow.innerGlow uv uni := by
  unfold SunburstGlow.innerGlow SunburstGlow.insideYolk
  refine mul_nonneg (mul_nonneg ?_ (innerPulse_gpu_pos _).le) ?_
  · norm_num [SunburstGlow.INNER_GLOW_INTENSITY]
  · have := step_le_one uni.yolkRadius (SunburstGlow.dist uv uni)
    unfold SunburstGlow.outsideYolk
    linarith

/-- The WebGL2 innerGlow term is non-negative for every uniforms record. -/
theorem innerGlow_gl2_nonneg (uv : Glow.Vec2) (uni : Glow.Uniforms) :
    0 ≤ SunburstGlowWebGL2.innerGlow uv uni := by
  unfold SunburstGlowWebGL2.innerGlow SunburstGlowWebGL2.insideYolk
  refine mul_nonneg (mul_nonneg ?_ (innerPulse_gl2_pos _).le) ?_
  · norm_num [SunburstGlowWebGL2.INNER_GLOW_INTENSITY]
  · have := step_le_one uni.yolkRadius (SunburstGlowWebGL2.dist uv uni)
    unfold SunburstGlowWebGL2.outsideYolk
    linarith

/-- A texel channel only grows when the common color weight and the three
glow terms it multiplies are all non-negative. -/
theorem channel_never_darkens (tx c gs b ig : ℝ) (hc : 0 ≤ c) (hgs : 0 ≤ gs) (hb : 0 ≤ b)
    (hig : 0 ≤ ig) : tx ≤ tx + c * gs + c * b + c * ig := by
  nlinarith

/-- C10: with the constants compiled into either backend, every multiplicative
factor of the three glow contributions (radiating wave term, falloff, outer
pulse, bloom term, inner pulse, masks, glow strength, inner glow) is
non-negative at every uv and every time, so each output RGB channel of the
shading is at least the corresponding sampled texel channel — the shading
never darkens a pixel. -/
theorem C10_shading_never_darkens :
    ∀ (uv : Glow.Vec2) (t aspect : ℝ) (texel : Glow.Vec4),
      (0 ≤ SunburstGlow.rayIntensity uv (SunburstGlow.configuredUniforms t aspect) ∧
        0 < SunburstGlow.falloff uv (SunburstGlow.configuredUniforms t aspect) ∧
        0 < SunburstGlow.pulse (SunburstGlow.configuredUniforms t aspect) ∧
        0 ≤ SunburstGlow.outsideYolk uv (SunburstGlow.configuredUniforms t aspect) ∧
        0 ≤ SunburstGlow.insideYolk uv (SunburstGlow.configuredUniforms t aspect) ∧
        0 < SunburstGlow.innerPulse (SunburstGlow.configuredUniforms t aspect) ∧
        0 ≤ SunburstGlow.glowStrength uv (SunburstGlow.configuredUniforms t aspect) ∧
        0 ≤ SunburstGlow.bloom uv (SunburstGlow.configuredUniforms t aspect) ∧
        0 ≤ SunburstGlow.innerGlow uv (SunburstGlow.configuredUniforms t aspect)) ∧
      (texel.x ≤ (SunburstGlow.fragmentMain uv (SunburstGlow.configuredUniforms t aspect)
          texel).x ∧
        texel.y ≤ (SunburstGlow.fragmentMain uv (SunburstGlow.configuredUniforms t aspect)
          texel).y ∧
        texel.z ≤ (SunburstGlow.fragmentMain uv (SunburstGlow.configuredUniforms t aspect)
          texel).z) ∧
      (0 ≤ SunburstGlowWebGL2.rayIntensity uv (SunburstGlowWebGL2.configuredUniforms t aspect) ∧
        0 < SunburstGlowWebGL2.falloff uv (SunburstGlowWebGL2.configuredUniforms t aspect) ∧
        0 < SunburstGlowWebGL2.pulse (SunburstGlowWebGL2.configuredUniforms t aspect) ∧
        0 ≤ SunburstGlowWebGL2.outsideYolk uv (SunburstGlowWebGL2.configuredUniforms t aspect) ∧
        0 ≤ SunburstGlowWebGL2.insideYolk uv (SunburstGlowWebGL2.configuredUniforms t aspect) ∧
        0 < SunburstGlowWebGL2.innerPulse (SunburstGlowWebGL2.configuredUniforms t aspect) ∧
        0 ≤ SunburstGlowWebGL2.glowStrength uv (SunburstGlowWebGL2.configuredUniforms t aspect) ∧
        0 ≤ SunburstGlowWebGL2.bloom uv (SunburstGlowWebGL2.configuredUniforms t aspect) ∧
        0 ≤ SunburstGlowWebGL2.innerGlow uv (SunburstGlowWebGL2.configuredUniforms t aspect)) ∧
      (texel.x ≤ (SunburstGlowWebGL2.main uv (SunburstGlowWebGL2.configuredUniforms t aspect)
          texel).x ∧
        texel.y ≤ (SunburstGlowWebGL2.main uv (SunburstGlowWebGL2.configuredUniforms t aspect)
          texel).y ∧
        texel.z ≤ (SunburstGlowWebGL2.main uv (SunburstGlowWebGL2.configuredUniforms t aspect)
          texel).z) := by
  intro uv t aspect texel
  have hgs1 := glowStrength_gpu_nonneg uv t aspect
  have hgs2 := glowStrength_gl2_nonneg uv t aspect
  have hb1 := bloom_gpu_nonneg uv (SunburstGlow.configuredUniforms t aspect)
  have hb2 := bloom_gl2_nonneg uv (SunburstGlowWebGL2.configuredUniforms t aspect)
  have hi1 := innerGlow_gpu_nonneg uv (SunburstGlow.configuredUniforms t aspect)
  have hi2 := innerGlow_gl2_nonneg uv (SunburstGlowWebGL2.configuredUniforms t aspect)
  have hcr1 : (0:ℝ) ≤ (SunburstGlow.configuredUniforms t aspect).glowColor.x := by
    norm_num [SunburstGlow.configuredUniforms, SunburstGlow.GLOW_COLOR_R]
  have hcg1 : (0:ℝ) ≤ (SunburstGlow.configuredUniforms t aspect).glowColor.y := by
    norm_num [SunburstGlow.configuredUniforms, SunburstGlow.GLOW_COLOR_G]
  have hcb1 : (0:ℝ) ≤ (SunburstGlow.configuredUniforms t aspect).glowColor.z := by
    norm_num [SunburstGlow.configuredUniforms, SunburstGlow.GLOW_COLOR_B]
  have hcr2 : (0:ℝ) ≤ (SunburstGlowWebGL2.configuredUniforms t aspect).glowColor.x := by
    norm_num [SunburstGlowWebGL2.configuredUniforms, SunburstGlowWebGL2.GLOW_COLOR_R]
  have hcg2 : (0:ℝ) ≤ (SunburstGlowWebGL2.configuredUniforms t aspect).glowColor.y := by
    norm_num [SunburstGlowWebGL2.configuredUniforms, SunburstGlowWebGL2.GLOW_COLOR_G]
  have hcb2 : (0:ℝ) ≤ (SunburstGlowWebGL2.configuredUniforms t aspect).glowColor.z := by
    norm_num [SunburstGlowWebGL2.configuredUniforms, SunburstGlowWebGL2.GLOW_COLOR_B]
  refine ⟨⟨radiatingRays_gpu_nonneg _ _ _ _ _ _, Real.exp_pos _, pulse_gpu_pos _,
      step_nonneg _ _, ?_, innerPulse_gpu_pos _, hgs1, hb1, hi1⟩, ⟨?_, ?_, ?_⟩,
    ⟨radiatingRays_gl2_nonneg _ _ _ _ _ _, Real.exp_pos _, pulse_gl2_pos _,
      step_nonneg _ _, ?_, innerPulse_gl2_pos _, hgs2, hb2, hi2⟩, ⟨?_, ?_, ?_⟩⟩
  · unfold SunburstGlow.insideYolk SunburstGlow.outsideYolk
    have := step_le_one (SunburstGlow.configuredUniforms t aspect).yolkRadius
      (SunburstGlow.dist uv (SunburstGlow.configuredUniforms t aspect))
    linarith
  · show texel.x ≤ texel.x +
      (SunburstGlow.glowContribution uv (SunburstGlow.configuredUniforms t aspect)).x +
      (SunburstGlow.bloomColor uv (SunburstGlow.configuredUniforms t aspect)).x +
      (SunburstGlow.innerGlowColor uv (SunburstGlow.configuredUniforms t aspect)).x
    unfold SunburstGlow.glowContribution SunburstGlow.bloomColor SunburstGlow.innerGlowColor
    dsimp only
    exact channel_never_darkens _ _ _ _ _ hcr1 hgs1 hb1 hi1
  · show texel.y ≤ texel.y +
      (SunburstGlow.glowContribution uv (SunburstGlow.configuredUniforms t aspect)).y +
      (SunburstGlow.bloomColor uv (SunburstGlow.configuredUniforms t aspect)).y +
      (SunburstGlow.innerGlowColor uv (SunburstGlow.configuredUniforms t aspect)).y
    unfold SunburstGlow.glowContribution SunburstGlow.bloomColor SunburstGlow.innerGlowColor
    dsimp only
    exact channel_never_darkens _ _ _ _ _ hcg1 hgs1 hb1 hi1
  · show texel.z ≤ texel.z +
      (SunburstGlow.glowContribution uv (SunburstGlow.configuredUniforms t aspect)).z +
      (SunburstGlow.bloomColor uv (SunburstGlow.configuredUniforms t aspect)).z +
      (SunburstGlow.innerGlowColor uv (SunburstGlow.configuredUniforms t aspect)).z
    unfold SunburstGlow.glowContribution SunburstGlow.bloomColor SunburstGlow.innerGlowColor
    dsimp only
    exact channel_never_darkens _ _ _ _ _ hcb1 hgs1 hb1 hi1
  · unfold SunburstGlowWebGL2.insideYolk SunburstGlowWebGL2.outsideYolk
    have := step_le_one (SunburstGlowWebGL2.configuredUniforms t aspect).yolkRadius
      (SunburstGlowWebGL2.dist uv (SunburstGlowWebGL2.configuredUniforms t aspect))
    linarith
  · show texel.x ≤ texel.x +
      (SunburstGlowWebGL2.glowContribution uv
        (SunburstGlowWebGL2.configuredUniforms t aspect)).x +
      (SunburstGlowWebGL2.bloomColor uv (SunburstGlowWebGL2.configuredUniforms t aspect)).x +
      (SunburstGlowWebGL2.innerGlowColor uv (SunburstGlowWebGL2.configuredUniforms t aspect)).x
    unfold SunburstGlowWebGL2.glowContribution SunburstGlowWebGL2.bloomColor
      SunburstGlowWebGL2.innerGlowColor
    dsimp only
    exact channel_never_darkens _ _ _ _ _ hcr2 hgs2 hb2 hi2
  · show texel.y ≤ texel.y +
      (SunburstGlowWebGL2.glowContribution uv
        (SunburstGlowWebGL2.configuredUniforms t aspect)).y +
      (SunburstGlowWebGL2.bloomColor uv (SunburstGlowWebGL2.configuredUniforms t aspect)).y +
      (SunburstGlowWebGL2.innerGlowColor uv (SunburstGlowWebGL2.configuredUniforms t aspect)).y
    unfold SunburstGlowWebGL2.glowContribution SunburstGlowWebGL2.bloomColor
      SunburstGlowWebGL2.innerGlowColor
    dsimp only
    exact channel_never_darkens _ _ _ _ _ hcg2 hgs2 hb2 hi2
  · show texel.z ≤ texel.z +
      (SunburstGlowWebGL2.glowContribution uv
        (SunburstGlowWebGL2.configuredUniforms t aspect)).z +
      (SunburstGlowWebGL2.bloomColor uv (SunburstGlowWebGL2.configuredUniforms t aspect)).z +
      (SunburstGlowWebGL2.innerGlowColor uv (SunburstGlowWebGL2.configuredUniforms t aspect)).z
    unfold SunburstGlowWebGL2.glowContribution SunburstGlowWebGL2.bloomColor
      SunburstGlowWebGL2.innerGlowColor
    dsimp only
    exact channel_never_darkens _ _ _ _ _ hcb2 hgs2 hb2 hi2

/-- C4: the two backend radiating-wave functions are configurations of one
parameterized function: at the WebGPU constants the parameterized angular-ray
shape is pointwise the WebGPU radiatingRays, and for some setting of the
rayPower/blend constants (here rayWaveBlend 0 and waveOnlyBlend equal to the
WebGL2 RAY_INTENSITY), with the wave constants shared with the WebGL2
backend, it is pointwise equal to the pure-radial WebGL2 radiatingRays. -/
theorem C4_rays_one_parameterized_function :
    (∀ (uv center : Glow.Vec2) (time rayCount dist yolkRadius : ℝ),
        Glow.radiatingRaysParam Glow.gpuRaysConfig uv center time rayCount dist yolkRadius =
          SunburstGlow.radiatingRays uv center time rayCount dist yolkRadius) ∧
    ∃ rayPower rayIntensity rayWaveBlend waveOnlyBlend : ℝ,
      ∀ (uv center : Glow.Vec2) (time rayCount dist yolkRadius : ℝ),
        Glow.radiatingRaysParam
            (Glow.gl2WaveRaysConfig rayPower rayIntensity rayWaveBlend waveOnlyBlend)
            uv center time rayCount dist yolkRadius =
          SunburstGlowWebGL2.radiatingRays uv center time rayCount dist yolkRadius := by
  constructor
  · intro uv center time rayCount dist yolkRadius
    simp only [Glow.radiatingRaysParam, Glow.gpuRaysConfig, SunburstGlow.radiatingRays]
  · refine ⟨SunburstGlowWebGL2.RAY_POWER, SunburstGlowWebGL2.RAY_INTENSITY, 0,
      SunburstGlowWebGL2.RAY_INTENSITY, ?_⟩
    intro uv center time rayCount dist yolkRadius
    simp only [Glow.radiatingRaysParam, Glow.gl2WaveRaysConfig,
      SunburstGlowWebGL2.radiatingRays]
    ring_nf

/-- At uv = (0.5, 0.6), t = 0, aspect 1, the WebGPU aspect-corrected distance
to the configured center (0.5, 0.46) is exactly 0.14. -/
theorem gpu_scenario_dist_eq :
    SunburstGlow.dist ⟨0.5, 0.6⟩ (SunburstGlow.configuredUniforms 0 1) = 0.14 := by
  have hnn : 0 ≤ SunburstGlow.dist ⟨0.5, 0.6⟩ (SunburstGlow.configuredUniforms 0 1) := by
    unfold SunburstGlow.dist Glow.length2
    exact Real.sqrt_nonneg _
  have hsq : SunburstGlow.dist ⟨0.5, 0.6⟩ (SunburstGlow.configuredUniforms 0 1) ^ 2 =
      (0.14:ℝ) ^ 2 := by
    unfold SunburstGlow.dist Glow.length2
    rw [Real.sq_sqrt (by positivity)]
    norm_num [SunburstGlow.configuredUniforms, SunburstGlow.YOLK_CENTER_X,
      SunburstGlow.YOLK_CENTER_Y]
  calc SunburstGlow.dist ⟨0.5, 0.6⟩ (SunburstGlow.configuredUniforms 0 1)
      = Real.sqrt (SunburstGlow.dist ⟨0.5, 0.6⟩ (SunburstGlow.configuredUniforms 0 1) ^ 2) :=
        (Real.sqrt_sq hnn).symm
    _ = Real.sqrt ((0.14:ℝ) ^ 2) := by rw [hsq]
    _ = 0.14 := Real.sqrt_sq (by norm_num)

/-- At uv = (0.5, 0.6) under the WebGL2 configuration (center x 0.501), the
squared aspect-corrected distance is 0.019601, not 0.0196. -/
theorem gl2_scenario_dist_sq :
    SunburstGlowWebGL2.dist ⟨0.5, 0.6⟩ (SunburstGlowWebGL2.configuredUniforms 0 1) ^ 2 =
      0.019601 := by
  unfold SunburstGlowWebGL2.dist Glow.length2
  rw [Real.sq_sqrt (by positivity)]
  norm_num [SunburstGlowWebGL2.configuredUniforms, SunburstGlowWebGL2.YOLK_CENTER_X,
    SunburstGlowWebGL2.YOLK_CENTER_Y]

/-- At uv = (0.5, 0.6), t = 0, aspect 1, the WebGPU outside mask is 1. -/
theorem gpu_scenario_mask_eq :
    SunburstGlow.outsideYolk ⟨0.5, 0.6⟩ (SunburstGlow.configuredUniforms 0 1) = 1 := by
  unfold SunburstGlow.outsideYolk
  rw [gpu_scenario_dist_eq]
  unfold Glow.step
  have h : ¬ ((0.14:ℝ) < (SunburstGlow.configuredUniforms 0 1).yolkRadius) := by
    norm_num [SunburstGlow.configuredUniforms, SunburstGlow.YOLK_RADIUS]
  rw [if_neg h]

/-- At uv = (0.5, 0.6), t = 0, aspect 1, the WebGPU glow falloff is
exp(-0.09 * GLOW_FALLOFF_RATE): the effective distance is dist - radius =
0.14 - 0.05 = 0.09. -/
theorem gpu_scenario_falloff_eq :
    SunburstGlow.falloff ⟨0.5, 0.6⟩ (SunburstGlow.configuredUniforms 0 1) =
      Real.exp (-(0.09) * SunburstGlow.GLOW_FALLOFF_RATE) := by
  simp only [SunburstGlow.falloff, SunburstGlow.glowFalloff]
  rw [gpu_scenario_dist_eq]
  have h09 : max 0 ((0.14:ℝ) - (SunburstGlow.configuredUniforms 0 1).yolkRadius) = 0.09 := by
    rw [max_eq_right]
    · norm_num [SunburstGlow.configuredUniforms, SunburstGlow.YOLK_RADIUS]
    · norm_num [SunburstGlow.configuredUniforms, SunburstGlow.YOLK_RADIUS]
  rw [h09]

/-- The blended two-wave term of the WebGPU radiatingRays is strictly
positive: each wave has base above amplitude. -/
theorem gpu_wave_blend_pos (x y : ℝ) :
    0 < (Real.sin x * SunburstGlow.WAVE1_AMPLITUDE + SunburstGlow.WAVE1_BASE) *
        SunburstGlow.WAVE1_BLEND +
      (Real.sin y * SunburstGlow.WAVE2_AMPLITUDE + SunburstGlow.WAVE2_BASE) *
        SunburstGlow.WAVE2_BLEND := by
  have hx := Real.neg_one_le_sin x
  have hy := Real.neg_one_le_sin y
  norm_num [SunburstGlow.WAVE1_AMPLITUDE, SunburstGlow.WAVE1_BASE, SunburstGlow.WAVE1_BLEND,
    SunburstGlow.WAVE2_AMPLITUDE, SunburstGlow.WAVE2_BASE, SunburstGlow.WAVE2_BLEND]
  nlinarith

/-- The WebGPU radiatingRays value is strictly positive for all inputs: the
wave-only term is positive and the angular-ray term is non-negative. -/
theorem radiatingRays_gpu_pos (uv center : Glow.Vec2)
    (time rayCount dist yolkRadius : ℝ) :
    0 < SunburstGlow.radiatingRays uv center time rayCount dist yolkRadius := by
  simp only [SunburstGlow.radiatingRays]
  have hrays : 0 ≤ Real.rpow
      (max 0 (Real.sin (Glow.atan2 (uv.y - center.y) (uv.x - center.x) * rayCount)))
      SunburstGlow.RAY_POWER * SunburstGlow.RAY_INTENSITY :=
    mul_nonneg (Real.rpow_nonneg (le_max_left 0 _) _)
      (by norm_num [SunburstGlow.RAY_INTENSITY])
  have hw := gpu_wave_blend_pos
    (max 0 (dist - yolkRadius) * SunburstGlow.WAVE_FREQUENCY -
      time * SunburstGlow.WAVE_SPEED * SunburstGlow.WAVE1_SPEED_MULT)
    (max 0 (dist - yolkRadius) * (SunburstGlow.WAVE_FREQUENCY * SunburstGlow.WAVE2_FREQ_MULT) -
      time * SunburstGlow.WAVE_SPEED * SunburstGlow.WAVE2_SPEED_MULT +
      SunburstGlow.WAVE2_PHASE_OFFSET)
  have h1 : (0:ℝ) ≤ SunburstGlow.RAY_WAVE_BLEND := by norm_num [SunburstGlow.RAY_WAVE_BLEND]
  have h2 : (0:ℝ) < SunburstGlow.WAVE_ONLY_BLEND := by norm_num [SunburstGlow.WAVE_ONLY_BLEND]
  have ha := mul_nonneg (mul_nonneg hrays hw.le) h1
  have hb := mul_pos hw h2
  linarith

/-- C1 counterexample: the end-to-end scenario as claimed fails on both
backends.  Under the WebGPU configuration (radius 0.05) the falloff at
uv = (0.5, 0.6), t = 0, aspect 1 is exp(-0.09 * rate), not
exp(-0.085 * rate); under the WebGL2 configuration (center x 0.501) the
distance at that uv is sqrt(0.019601), not 0.14. -/
theorem C1_counterexample :
    SunburstGlow.falloff ⟨0.5, 0.6⟩ (SunburstGlow.configuredUniforms 0 1) ≠
      Real.exp (-(0.085) * SunburstGlow.GLOW_FALLOFF_RATE) ∧
    SunburstGlowWebGL2.dist ⟨0.5, 0.6⟩ (SunburstGlowWebGL2.configuredUniforms 0 1) ≠
      0.14 := by
  constructor
  · rw [gpu_scenario_falloff_eq]
    intro h
    have h2 := Real.exp_injective h
    norm_num [SunburstGlow.GLOW_FALLOFF_RATE] at h2
  · intro h
    have key := gl2_scenario_dist_sq
    rw [h] at key
    norm_num at key

/-- C1 (amended): the scenario holds on the WebGPU backend with its own
radius 0.05: at uv = (0.5, 0.6), t = 0, aspect 1, the aspect-corrected
distance is 0.14, the outside mask is 1, the glow falloff is
exp(-0.09 * GLOW_FALLOFF_RATE) (effective distance 0.14 - 0.05), and the
radial-wave-driven glow contribution is strictly positive. -/
theorem C1_amended_scenario :
    SunburstGlow.dist ⟨0.5, 0.6⟩ (SunburstGlow.configuredUniforms 0 1) = 0.14 ∧
    SunburstGlow.outsideYolk ⟨0.5, 0.6⟩ (SunburstGlow.configuredUniforms 0 1) = 1 ∧
    SunburstGlow.falloff ⟨0.5, 0.6⟩ (SunburstGlow.configuredUniforms 0 1) =
      Real.exp (-(0.09) * SunburstGlow.GLOW_FALLOFF_RATE) ∧
    0 < (SunburstGlow.glowContribution ⟨0.5, 0.6⟩ (SunburstGlow.configuredUniforms 0 1)).x := by
  refine ⟨gpu_scenario_dist_eq, gpu_scenario_mask_eq, gpu_scenario_falloff_eq, ?_⟩
  unfold SunburstGlow.glowContribution
  dsimp only
  have hc : (SunburstGlow.configuredUniforms 0 1).glowColor.x = 1 := by
    norm_num [SunburstGlow.configuredUniforms, SunburstGlow.GLOW_COLOR_R]
  rw [hc, one_mul]
  unfold SunburstGlow.glowStrength
  rw [gpu_scenario_mask_eq, mul_one]
  have hgi : (0:ℝ) < (SunburstGlow.configuredUniforms 0 1).glowIntensity := by
    norm_num [SunburstGlow.configuredUniforms, SunburstGlow.GLOW_INTENSITY]
  have hri : 0 < SunburstGlow.rayIntensity ⟨0.5, 0.6⟩ (SunburstGlow.configuredUniforms 0 1) := by
    unfold SunburstGlow.rayIntensity
    exact radiatingRays_gpu_pos _ _ _ _ _ _
  exact mul_pos (mul_pos (mul_pos hri (Real.exp_pos _)) hgi) (pulse_gpu_pos _)
